import Mathlib

/-!
Shallow embedding of `pgmpy/continuous/factors/ContinuousFactor.py`.

The Python class `ContinuousFactor` subclasses `scipy.stats.rv_continuous`.
Its own code is: a constructor storing the user density function as the
instance attribute `pdf` and forwarding `momtype=0, a=lb, b=ub` to the base
initializer; a `_pdf` method returning `self.pdf(*args)`; and a `discretize`
method that checks `issubclass(method, BaseDiscretizer)` and, on success,
returns `method(self, *args, **kwargs).get_discrete_values()`.

Numeric values are embedded as rationals; a Python call that may raise is a
function into `Except PyError`. Methods that could in principle mutate the
instance are embedded in state-passing style, returning the (possibly
updated) `ContinuousFactor` alongside their result, together with a trace of
the observable construction / invocation events of `discretize`.
-/

set_option autoImplicit false

namespace Pgmpy

/-- Python exceptions relevant to this fragment, carrying their message. -/
inductive PyError where
  | typeError (msg : String)
  | valueError (msg : String)
  deriving DecidableEq, Repr

/-- Extended reals used by the scipy distribution base for support bounds. -/
inductive XReal where
  | negInf
  | posInf
  | fin (q : ℚ)
  deriving DecidableEq, Repr

/-- State of a `ContinuousFactor` instance.

`dict_pdf` is the entry for the key `pdf` in the instance `__dict__`
(line 43 of the source, `self.pdf = pdf`, always fills it); `momtype`, `a`
and `b` are the fields the `rv_continuous` base initializer records from
its `momtype=0, a=lb, b=ub` arguments. -/
structure ContinuousFactor where
  dict_pdf : Option (List ℚ → Except PyError ℚ)
  momtype : ℕ
  a : XReal
  b : XReal

namespace ContinuousFactor

/-- Embedding of `ContinuousFactor.__init__` (source lines 22 to 44):
stores the user density function unvalidated as the instance attribute
`pdf`, then calls the base initializer with `momtype=0, a=lb, b=ub`; the
base records a missing bound as the corresponding infinity, as the source
docstring states (default is minus infinity for `lb`, plus infinity
for `ub`). -/
def init (pdf : List ℚ → Except PyError ℚ) (lb ub : Option ℚ) : ContinuousFactor where
  dict_pdf := some pdf
  momtype := 0
  a := match lb with
    | none => XReal.negInf
    | some v => XReal.fin v
  b := match ub with
    | none => XReal.posInf
    | some v => XReal.fin v

/-- Python attribute lookup for `self.pdf`: the instance `__dict__` entry is
found first; only when it is absent does lookup fall back to the `pdf`
method inherited from the `rv_continuous` class, which is passed in here as
an arbitrary `classMethod`. -/
def getattr_pdf (cf : ContinuousFactor)
    (classMethod : List ℚ → Except PyError ℚ) : List ℚ → Except PyError ℚ :=
  cf.dict_pdf.getD classMethod

/-- Embedding of `ContinuousFactor._pdf` (source lines 46 to 51): returns
`self.pdf(*args)`, where `self.pdf` is resolved by attribute lookup. The
instance state is returned unchanged alongside the result. -/
def _pdf (cf : ContinuousFactor)
    (classMethod : List ℚ → Except PyError ℚ) (args : List ℚ) :
    Except PyError ℚ × ContinuousFactor :=
  (cf.getattr_pdf classMethod args, cf)

end ContinuousFactor

/-- Observable events of a `discretize` call: construction of a discretizer
instance and invocation of its `get_discrete_values` method, tagged with the
name of the discretizer class. -/
inductive Event where
  | constructedDiscretizer (name : String)
  | calledGetDiscreteValues (name : String)
  deriving DecidableEq, Repr

/-- A constructed discretizer instance: its only capability used here is
`get_discrete_values`, which may itself raise. -/
structure DiscretizerObj (V : Type) where
  get_discrete_values : Except PyError (List V)

/-- A Python class value that could be passed as the `method` argument of
`discretize`. `name` is the text `"{}".format(method)` produces for it;
`isSubclassOfBaseDiscretizer` records the outcome of
`issubclass(method, BaseDiscretizer)`; `init` is its constructor, taking
the distribution and the extra arguments. -/
structure DiscretizerClass (V Args : Type) where
  name : String
  isSubclassOfBaseDiscretizer : Bool
  init : ContinuousFactor → Args → DiscretizerObj V

/-- A Python value passed as the `method` argument of `discretize`: either
a class, or a non-class value such as a plain integer. -/
inductive PyVal (V Args : Type) where
  | cls (c : DiscretizerClass V Args)
  | int (n : ℤ)

/-- The text `"{}".format(v)` produces for a `method` value. -/
def pyFormat {V Args : Type} : PyVal V Args → String
  | PyVal.cls c => c.name
  | PyVal.int n => toString n

/-- Embedding of Python `issubclass(method, BaseDiscretizer)`: for a class
it returns whether the class specializes the discretizer base; for a
non-class first argument the builtin itself raises
`TypeError: issubclass() arg 1 must be a class`. -/
def issubclassBaseDiscretizer {V Args : Type} : PyVal V Args → Except PyError Bool
  | PyVal.cls c => Except.ok c.isSubclassOfBaseDiscretizer
  | PyVal.int _ => Except.error (PyError.typeError "issubclass() arg 1 must be a class")

/-- Whether the `issubclass` guard of `discretize` lets `method` through. -/
def passesSubclassCheck {V Args : Type} : PyVal V Args → Bool
  | PyVal.cls c => c.isSubclassOfBaseDiscretizer
  | PyVal.int _ => false

namespace ContinuousFactor

/-- Embedding of `ContinuousFactor.discretize` (source lines 53 to 86):
evaluates `issubclass(method, BaseDiscretizer)`; if that raises, the error
propagates; if it returns false, raises
`TypeError("{} must be Discretizer class.".format(method))`; otherwise
constructs `method(self, *args, **kwargs)` and returns the result of its
`get_discrete_values()` verbatim. Returns the result, the instance state
after the call, and the trace of construction / invocation events. -/
def discretize {V Args : Type} (cf : ContinuousFactor) (method : PyVal V Args)
    (a : Args) : Except PyError (List V) × ContinuousFactor × List Event :=
  match method with
  | PyVal.int _ =>
      (Except.error (PyError.typeError "issubclass() arg 1 must be a class"), cf, [])
  | PyVal.cls c =>
      if c.isSubclassOfBaseDiscretizer then
        ((c.init cf a).get_discrete_values, cf,
          [Event.constructedDiscretizer c.name, Event.calledGetDiscreteValues c.name])
      else
        (Except.error (PyError.typeError (pyFormat method ++ " must be Discretizer class.")),
          cf, [])

end ContinuousFactor

/-- The direct path the spec compares `discretize` against: construct
`D(adapter, *args)` and call its `get_discrete_values` method. -/
def directGetDiscreteValues {V Args : Type} (c : DiscretizerClass V Args)
    (cf : ContinuousFactor) (a : Args) : Except PyError (List V) :=
  (c.init cf a).get_discrete_values

/-- The density of the source docstring example (line 39):
`lambda x : 0.5 if x > -1 and x < 1 else 0`, embedded on argument lists;
calling a one-argument lambda with any other number of arguments raises a
TypeError. -/
def custom_pdf : List ℚ → Except PyError ℚ
  | [x] => Except.ok (if -1 < x ∧ x < 1 then 1/2 else 0)
  | _ => Except.error (PyError.typeError "lambda takes exactly 1 argument")

/-- The adapter of the source docstring example (line 40):
`ContinuousFactor(custom_pdf, -3, 3)`. -/
def node : ContinuousFactor := ContinuousFactor.init custom_pdf (some (-3)) (some 3)

/-- A sample discretizer class that does specialize the discretizer base:
its instances evaluate the density of the wrapped distribution at each of
the given points. -/
def sampleDiscretizer : DiscretizerClass ℚ (List ℚ) where
  name := "SampleDiscretizer"
  isSubclassOfBaseDiscretizer := true
  init := fun cf args =>
    { get_discrete_values := args.mapM fun x => (cf._pdf (fun _ => Except.ok 0) [x]).1 }

/-- A sample class unrelated to the discretizer base. -/
def unrelatedClass : DiscretizerClass ℚ (List ℚ) where
  name := "UnrelatedClass"
  isSubclassOfBaseDiscretizer := false
  init := fun _ _ => { get_discrete_values := Except.ok [] }

/-- A sample density function that raises whenever it is evaluated. -/
def raising_pdf : List ℚ → Except PyError ℚ :=
  fun _ => Except.error (PyError.valueError "density undefined")

/-- Claim C1: for every adapter instance, every discretizer class `D` that
is a subclass of the discretizer base, and every argument list, calling
`discretize(D, *args)` returns exactly the value obtained by constructing
`D(adapter, *args)` and calling its `get_discrete_values` operation
directly. -/
theorem claim1_discretize_refines_direct_call {V Args : Type}
    (cf : ContinuousFactor) (c : DiscretizerClass V Args) (a : Args)
    (h : c.isSubclassOfBaseDiscretizer = true) :
    (cf.discretize (PyVal.cls c) a).1 = directGetDiscreteValues c cf a := by
  simp [ContinuousFactor.discretize, directGetDiscreteValues, h]

/-- Witness for claim C1 at the docstring adapter, the sample discretizer
class and the point list `[0, 2]`. -/
theorem claim1_witness :
    sampleDiscretizer.isSubclassOfBaseDiscretizer = true ∧
    (node.discretize (PyVal.cls sampleDiscretizer) [0, 2]).1 =
      directGetDiscreteValues sampleDiscretizer node [0, 2] :=
  ⟨rfl, claim1_discretize_refines_direct_call node sampleDiscretizer [0, 2] rfl⟩

/-- Claim C2 counterexample: calling `discretize` with the plain integer 3
fails inside the `issubclass` builtin itself, with the generic message
`issubclass() arg 1 must be a class`; the text `3` naming the offending
value does not occur in that message, so the error is not the
`invalid discretizer type` error carrying a message naming the value. -/
theorem claim2_counterexample :
    (node.discretize (PyVal.int 3 : PyVal ℚ (List ℚ)) []).1 =
      Except.error (PyError.typeError "issubclass() arg 1 must be a class") ∧
    ¬ List.IsInfix (pyFormat (PyVal.int 3 : PyVal ℚ (List ℚ))).data
        "issubclass() arg 1 must be a class".data := by
  exact ⟨rfl, by decide⟩

/-- Claim C2 amended: for every `method` value that fails the subclass
check, `discretize` raises a TypeError before any discretizer is
constructed and before any other event; when `method` is a class that is
not a subclass of the discretizer base the message names the offending
value, while for a non-class value such as a plain integer the
`issubclass` builtin itself raises with its generic message. -/
theorem claim2_amended_invalid_method_raises {V Args : Type}
    (cf : ContinuousFactor) (method : PyVal V Args) (a : Args)
    (h : passesSubclassCheck method = false) :
    (cf.discretize method a).1 =
      Except.error (PyError.typeError
        (match method with
          | PyVal.cls c => c.name ++ " must be Discretizer class."
          | PyVal.int _ => "issubclass() arg 1 must be a class")) ∧
    (cf.discretize method a).2.2 = [] := by
  cases method with
  | int n => exact ⟨rfl, rfl⟩
  | cls c =>
      simp only [passesSubclassCheck] at h
      simp [ContinuousFactor.discretize, h, pyFormat]

/-- Witness for the amended claim C2 at the docstring adapter and the
sample unrelated class. -/
theorem claim2_amended_witness :
    passesSubclassCheck (PyVal.cls unrelatedClass) = false ∧
    (node.discretize (PyVal.cls unrelatedClass) ([] : List ℚ)).1 =
      Except.error (PyError.typeError "UnrelatedClass must be Discretizer class.") ∧
    (node.discretize (PyVal.cls unrelatedClass) ([] : List ℚ)).2.2 = [] := by
  have h := claim2_amended_invalid_method_raises node (PyVal.cls unrelatedClass)
    ([] : List ℚ) rfl
  exact ⟨rfl, h.1, h.2⟩

/-- Claim C3: for every density function `f`, every bounds pair, every
inherited class method and every argument list `x`, the adapter
constructed from `f` has `_pdf` return exactly `f x`, unchanged. -/
theorem claim3_pdf_delegates_to_density (f : List ℚ → Except PyError ℚ)
    (lb ub : Option ℚ) (classMethod : List ℚ → Except PyError ℚ) (x : List ℚ) :
    ((ContinuousFactor.init f lb ub)._pdf classMethod x).1 = f x := rfl

/-- Claim C4: construction succeeds for every density function without any
validation, stores the function as the instance attribute `pdf`, and
records the raw moment mode `momtype = 0` together with the support bounds
`a = lb` and `b = ub`, each defaulting to the corresponding infinity when
absent. -/
theorem claim4_construction_stores_state (f : List ℚ → Except PyError ℚ)
    (lb ub : Option ℚ) :
    (ContinuousFactor.init f lb ub).dict_pdf = some f ∧
    (ContinuousFactor.init f lb ub).momtype = 0 ∧
    (ContinuousFactor.init f lb ub).a =
      (match lb with | none => XReal.negInf | some v => XReal.fin v) ∧
    (ContinuousFactor.init f lb ub).b =
      (match ub with | none => XReal.posInf | some v => XReal.fin v) :=
  ⟨rfl, rfl, rfl, rfl⟩

/-- Claim C5: for every density function that raises on evaluation, the
error propagates through `_pdf` to the caller unmodified. -/
theorem claim5_pdf_error_propagates (f : List ℚ → Except PyError ℚ)
    (lb ub : Option ℚ) (classMethod : List ℚ → Except PyError ℚ) (x : List ℚ)
    (e : PyError) (h : f x = Except.error e) :
    ((ContinuousFactor.init f lb ub)._pdf classMethod x).1 = Except.error e := h

/-- Witness for claim C5 at a density that always raises a ValueError. -/
theorem claim5_witness :
    raising_pdf [0] = Except.error (PyError.valueError "density undefined") ∧
    ((ContinuousFactor.init raising_pdf none none)._pdf (fun _ => Except.ok 0) [0]).1 =
      Except.error (PyError.valueError "density undefined") :=
  ⟨rfl, claim5_pdf_error_propagates raising_pdf none none (fun _ => Except.ok 0) [0]
    (PyError.valueError "density undefined") rfl⟩

/-- Claim C6: neither `_pdf` nor `discretize` (on any of its paths) mutates
the instance state, so the stored density function and the support bounds
are never replaced by any operation of the class. -/
theorem claim6_operations_preserve_state {V Args : Type} (cf : ContinuousFactor)
    (classMethod : List ℚ → Except PyError ℚ) (x : List ℚ)
    (method : PyVal V Args) (a : Args) :
    (cf._pdf classMethod x).2 = cf ∧ (cf.discretize method a).2.1 = cf := by
  refine ⟨rfl, ?_⟩
  cases method with
  | int n => rfl
  | cls c =>
      by_cases h : c.isSubclassOfBaseDiscretizer <;>
        simp [ContinuousFactor.discretize, h]

/-- Claim C7: for the docstring adapter with density 0.5 on (-1, 1) and 0
elsewhere and bounds (-3, 3), density evaluation at 0 returns exactly 0.5
and density evaluation at 2 returns exactly 0, whatever class method the
attribute lookup could have fallen back to. -/
theorem claim7_docstring_scenario (classMethod : List ℚ → Except PyError ℚ) :
    (node._pdf classMethod [0]).1 = Except.ok (1/2) ∧
    (node._pdf classMethod [2]).1 = Except.ok 0 := by
  constructor <;> rfl

/-- Claim C8: density evaluation is deterministic: a second `_pdf` call on
the state returned by a first call, with the same input and no mutation in
between, returns the same output. -/
theorem claim8_pdf_deterministic (cf : ContinuousFactor)
    (classMethod : List ℚ → Except PyError ℚ) (x : List ℚ) :
    ((cf._pdf classMethod x).2._pdf classMethod x).1 = (cf._pdf classMethod x).1 := rfl

/-- Claim C9: construction places the user function in the instance
attribute dictionary, so public attribute lookup of `pdf` returns the raw
user function applied to the arguments for every point `x` (the bounds do
not restrict `x`, so this includes points outside them) and for every
possible inherited class method, which is therefore shadowed: no clipping
to zero outside the bounds and no base class argument processing can
occur. -/
theorem claim9_instance_attribute_shadows_base (f : List ℚ → Except PyError ℚ)
    (lb ub : Option ℚ) (classMethod : List ℚ → Except PyError ℚ) (x : List ℚ) :
    (ContinuousFactor.init f lb ub).dict_pdf = some f ∧
    (ContinuousFactor.init f lb ub).getattr_pdf classMethod x = f x :=
  ⟨rfl, rfl⟩

/-- Claim C10: for every `method` value rejected by the subclass check,
`discretize` raises a TypeError with no discretizer constructed and no
`get_discrete_values` invocation (the event trace is empty), leaving the
instance state exactly as it was. -/
theorem claim10_error_path_is_atomic {V Args : Type} (cf : ContinuousFactor)
    (method : PyVal V Args) (a : Args)
    (h : passesSubclassCheck method = false) :
    (∃ msg, (cf.discretize method a).1 = Except.error (PyError.typeError msg)) ∧
    (cf.discretize method a).2.2 = [] ∧
    (cf.discretize method a).2.1 = cf := by
  cases method with
  | int n => exact ⟨⟨"issubclass() arg 1 must be a class", rfl⟩, rfl, rfl⟩
  | cls c =>
      simp only [passesSubclassCheck] at h
      refine ⟨⟨c.name ++ " must be Discretizer class.", ?_⟩, ?_, ?_⟩ <;>
        simp [ContinuousFactor.discretize, h, pyFormat]

/-- Witness for claim C10 at the docstring adapter and the plain
integer 7. -/
theorem claim10_witness :
    passesSubclassCheck (PyVal.int 7 : PyVal ℚ (List ℚ)) = false ∧
    ((∃ msg, (node.discretize (PyVal.int 7 : PyVal ℚ (List ℚ)) []).1 =
        Except.error (PyError.typeError msg)) ∧
      (node.discretize (PyVal.int 7 : PyVal ℚ (List ℚ)) []).2.2 = [] ∧
      (node.discretize (PyVal.int 7 : PyVal ℚ (List ℚ)) []).2.1 = node) :=
  ⟨rfl, claim10_error_path_is_atomic node (PyVal.int 7) [] rfl⟩

end Pgmpy
